import Mathlib

/-!
Verification of the word-chain (shiritori) and kanji-compound (Waaduru) game
engines of the lain Discord bot.  The Python source (`bot.py`) is shallowly
embedded: characters are Unicode code points (`Nat`), strings are `List Nat`,
Python `set`s are `Finset`s, the mutable per-channel / per-user registries are
explicit `Option` entries threaded through step functions, and the external
lookup service together with all random draws appear as explicit parameters of
the step functions.
-/

namespace Lain

/-! ## Kana utilities (bot.py lines 230-305) -/

/-- Character is in the hiragana Unicode block (U+3040 - U+309F). -/
def isHiraganaCode (c : Nat) : Bool := 0x3040 ≤ c && c ≤ 0x309F

/-- Character is in the katakana Unicode block (U+30A0 - U+30FF). -/
def isKatakanaCode (c : Nat) : Bool := 0x30A0 ≤ c && c ≤ 0x30FF

/-- Character is in the CJK unified ideographs block (U+4E00 - U+9FFF). -/
def isKanjiCode (c : Nat) : Bool := 0x4E00 ≤ c && c ≤ 0x9FFF

/-- Character counts as Japanese for the chain-game input filter
(bot.py lines 1344-1349). -/
def isJapaneseCode (c : Nat) : Bool :=
  isHiraganaCode c || isKatakanaCode c || isKanjiCode c

/-- Single-character step of `normalize_kana` (bot.py lines 230-241):
katakana code points are shifted down by 0x60 into the hiragana block,
everything else is unchanged. -/
def normalizeKanaChar (c : Nat) : Nat :=
  if isKatakanaCode c then c - 0x60 else c

/-- `normalize_kana` (bot.py lines 230-241): code-point-wise katakana to
hiragana conversion.  The Python early return for the empty string agrees
with mapping over the empty list. -/
def normalize_kana (text : List Nat) : List Nat :=
  text.map normalizeKanaChar

/-- `normalize_small_kana` (bot.py lines 244-254): the fixed small-kana to
full-size-kana table; characters outside the table pass through. -/
def normalize_small_kana (c : Nat) : Nat :=
  if c = 'ゃ'.toNat then 'や'.toNat
  else if c = 'ゅ'.toNat then 'ゆ'.toNat
  else if c = 'ょ'.toNat then 'よ'.toNat
  else if c = 'ぁ'.toNat then 'あ'.toNat
  else if c = 'ぃ'.toNat then 'い'.toNat
  else if c = 'ぅ'.toNat then 'う'.toNat
  else if c = 'ぇ'.toNat then 'え'.toNat
  else if c = 'ぉ'.toNat then 'お'.toNat
  else if c = 'ゎ'.toNat then 'わ'.toNat
  else if c = 'っ'.toNat then 'つ'.toNat
  else if c = 'ャ'.toNat then 'ヤ'.toNat
  else if c = 'ュ'.toNat then 'ユ'.toNat
  else if c = 'ョ'.toNat then 'ヨ'.toNat
  else if c = 'ァ'.toNat then 'ア'.toNat
  else if c = 'ィ'.toNat then 'イ'.toNat
  else if c = 'ゥ'.toNat then 'ウ'.toNat
  else if c = 'ェ'.toNat then 'エ'.toNat
  else if c = 'ォ'.toNat then 'オ'.toNat
  else if c = 'ヮ'.toNat then 'ワ'.toNat
  else if c = 'ッ'.toNat then 'ツ'.toNat
  else if c = 'ヵ'.toNat then 'カ'.toNat
  else if c = 'ヶ'.toNat then 'ケ'.toNat
  else c

/-- `normalize_for_comparison` (bot.py lines 280-287): katakana-to-hiragana
shift on the whole string, then the small-kana table.  The Python code applies
the table through a dictionary `get` on the *whole* string, so the table only
fires when the string is a single character (all table keys have length 1). -/
def normalize_for_comparison (kana : List Nat) : List Nat :=
  if kana = [] then []
  else
    match normalize_kana kana with
    | [c] => [normalize_small_kana c]
    | n => n

/-- The character qualifies as a returnable last kana (bot.py line 275):
in the hiragana or katakana block and not the elongation mark U+30FC. -/
def lastKanaQual (c : Nat) : Bool :=
  (isHiraganaCode c || isKatakanaCode c) && c ≠ 'ー'.toNat

/-- `get_last_kana` (bot.py lines 268-277): scan from the end of the string
and return the first hiragana/katakana character that is not the elongation
mark, as a one-character string; empty string when none exists. -/
def get_last_kana (text : List Nat) : List Nat :=
  match text.reverse.find? lastKanaQual with
  | some c => [c]
  | none => []

/-- The fixed common-kana pool `COMMON_KANA` (bot.py lines 310-314), a list of
one-character strings. -/
def COMMON_KANA : List (List Nat) :=
  "あいうえおかきくけこさしすせそたちつてとなにぬねのはひふへほまみむめもやゆよらりるれろわ".toList.map
    (fun c => [c.toNat])

/-! ## Shiritori chain game (bot.py lines 483-521 and 1340-1521) -/

/-- `GameMode` (bot.py lines 483-486). -/
inductive GameMode
  | vsBot
  | multiplayer
  | wordBasket
deriving DecidableEq

/-- `ShiritoriGame` state (bot.py lines 489-503).  `scores` models the Python
dictionary with its `get(pid, 0)` default. -/
structure ShiritoriGame where
  channel_id : Nat
  mode : GameMode
  used_words : Finset (List Nat)
  current_kana : List Nat
  end_kana : Option (List Nat)
  chain_count : Nat
  last_word : Option (List Nat)
  last_reading : Option (List Nat)
  last_player : Option Nat
  scores : Nat → Nat

/-- `ShiritoriGame.__init__` (bot.py lines 490-503).  The two random draws of
the constructor (`random.choice(COMMON_KANA)` and `_get_different_kana`) are
passed in explicitly; `end_kana` is only set in word-basket mode. -/
def ShiritoriGame.create (channel : Nat) (mode : GameMode)
    (startDraw endDraw : List Nat) : ShiritoriGame :=
  { channel_id := channel
    mode := mode
    used_words := ∅
    current_kana := startDraw
    end_kana := if mode = GameMode.wordBasket then some endDraw else none
    chain_count := 0
    last_word := none
    last_reading := none
    last_player := none
    scores := fun _ => 0 }

/-- `ShiritoriGame.add_score` (bot.py lines 510-512). -/
def ShiritoriGame.addScore (g : ShiritoriGame) (p : Nat) : ShiritoriGame :=
  { g with scores := fun q => if q = p then g.scores p + 1 else g.scores q }

/-- The candidate pool of `_get_different_kana` (bot.py lines 505-508): all
common kana except the excluded one; the draw itself is a `random.choice`
from this pool. -/
def differentKanaPool (exclude : List Nat) : List (List Nat) :=
  COMMON_KANA.filter (fun k => k ≠ exclude)

/-- Result descriptor for one chain-game submission; terminal outcomes carry
the game object that was popped from the registry and used for the final
report. -/
inductive ChainOutcome
  | noGame
  | notJapanese
  | notFound
  | endKanaMismatch
  | alreadyUsed
  | terminalKana (finalGame : ShiritoriGame)
  | humanWins (finalGame : ShiritoriGame)
  | continueGame

/-- One chain-game submission, following `on_message` (bot.py lines
1344-1521).  `lookup` is the `(reading, meaning)` result of
`lookup_word(content, current_kana)` (`none` when invalid), `botLookup` the
`(word, reading)` result of `find_bot_word` for the vs-bot continuation, and
`wbStart`/`wbEnd` the two word-basket kana redraws.  The first component of
the result is the channel's registry entry after the step (`none` models
`active_games.pop`). -/
def shiritoriStep (g : ShiritoriGame) (author : Nat) (content : List Nat)
    (lookup : Option (List Nat × List Nat))
    (botLookup : Option (List Nat × List Nat))
    (wbStart wbEnd : List Nat) : Option ShiritoriGame × ChainOutcome :=
  if ¬ content.any isJapaneseCode then (some g, ChainOutcome.notJapanese)
  else
    match lookup with
    | none => (some g, ChainOutcome.notFound)
    | some (reading, _meaning) =>
      let last_kana := get_last_kana reading
      let normalized_last := normalize_for_comparison last_kana
      if g.mode = GameMode.wordBasket ∧
          normalized_last ≠ normalize_for_comparison (g.end_kana.getD []) then
        (some g, ChainOutcome.endKanaMismatch)
      else if content ∈ g.used_words ∨ reading ∈ g.used_words then
        (some g, ChainOutcome.alreadyUsed)
      else if g.mode ≠ GameMode.wordBasket ∧
          normalize_for_comparison last_kana = ['ん'.toNat] then
        (none, ChainOutcome.terminalKana g)
      else
        let g1 : ShiritoriGame :=
          { g with
            used_words := insert reading (insert content g.used_words)
            chain_count := g.chain_count + 1
            last_word := some content
            last_reading := some reading
            last_player := some author }
        match g.mode with
        | GameMode.vsBot =>
          let g2 := { g1 with current_kana := last_kana }
          match botLookup with
          | none => (none, ChainOutcome.humanWins g2)
          | some (botWord, botReading) =>
            let g3 :=
              { g2 with
                used_words := insert botReading (insert botWord g2.used_words)
                chain_count := g2.chain_count + 1
                current_kana := get_last_kana botReading
                last_word := some botWord
                last_reading := some botReading }
            (some g3, ChainOutcome.continueGame)
        | GameMode.multiplayer =>
          (some ({ g1 with current_kana := last_kana }.addScore author),
            ChainOutcome.continueGame)
        | GameMode.wordBasket =>
          (some { g1.addScore author with
                    current_kana := wbStart
                    end_kana := some wbEnd },
            ChainOutcome.continueGame)

/-- Registry-level dispatch for a chain-game channel (bot.py lines
1341-1342): a channel without an active game processes nothing. -/
def chainProcessMessage (entry : Option ShiritoriGame) (author : Nat)
    (content : List Nat) (lookup : Option (List Nat × List Nat))
    (botLookup : Option (List Nat × List Nat))
    (wbStart wbEnd : List Nat) : Option ShiritoriGame × ChainOutcome :=
  match entry with
  | none => (none, ChainOutcome.noGame)
  | some g => shiritoriStep g author content lookup botLookup wbStart wbEnd

/-! ## Waaduru compound-guess game (bot.py lines 1526-1696 and 1990-2100) -/

/-- `GuessResult` feedback tiers (bot.py lines 1526-1530). -/
inductive GuessResult
  | green
  | yellow
  | orange
  | gray
deriving DecidableEq

/-- One per-position feedback entry: the tier plus the shared radicals per
answer position.  The Python `shared_info` dictionary contains a key for an
answer position exactly when the shared set is nonempty; an empty `Finset`
here models an absent key. -/
abbrev Feedback := GuessResult × Finset Nat × Finset Nat

/-- The guess budget; `max_guesses` is set to the constant 5 by both
constructors (bot.py lines 1540 and 1639) and never changed. -/
def waaduruMaxGuesses : Nat := 5

/-- Per-position tier computation of `check_guess` (bot.py lines 1564-1589):
green on exact positional match, yellow when the guessed kanji occurs anywhere
in the two-character answer, orange when its radical set (from `KRAD_MAP`,
defaulting to the empty set) meets the radical set of either answer position,
gray otherwise. -/
def checkPosition (krad : Nat → Finset Nat) (answer : Nat × Nat)
    (ai gi : Nat) : Feedback :=
  if gi = ai then (GuessResult.green, ∅, ∅)
  else if gi = answer.1 ∨ gi = answer.2 then (GuessResult.yellow, ∅, ∅)
  else
    let s0 := krad gi ∩ krad answer.1
    let s1 := krad gi ∩ krad answer.2
    if s0 ≠ ∅ ∨ s1 ≠ ∅ then (GuessResult.orange, s0, s1)
    else (GuessResult.gray, ∅, ∅)

/-- `check_guess` (bot.py lines 1552-1591; the `DailyWaaduruGame` copy at
lines 1643-1675 has a character-for-character identical body): `none` for a
guess that is not exactly two characters, otherwise the two per-position
feedback entries. -/
def check_guess (krad : Nat → Finset Nat) (answer : Nat × Nat)
    (guess : List Nat) : Option (List Feedback) :=
  match guess with
  | [g0, g1] =>
    some [checkPosition krad answer answer.1 g0,
          checkPosition krad answer answer.2 g1]
  | _ => none

/-- Union of the radicals shared with one answer position over all
orange-tier entries of a feedback list, as accumulated by `add_guess`
(bot.py lines 1599-1603). -/
def orangeShared (select : Finset Nat × Finset Nat → Finset Nat)
    (results : List Feedback) : Finset Nat :=
  results.foldl
    (fun acc fb => if fb.1 = GuessResult.orange then acc ∪ select fb.2 else acc)
    ∅

/-- `WaaduruGame` state for the shared-channel game (bot.py lines 1533-1543).
`discovered0`/`discovered1` are the two entries of the Python
`discovered_radicals` dictionary. -/
structure WaaduruGame where
  channel_id : Nat
  answer_word : Nat × Nat
  answer_reading : List Nat
  answer_meaning : List Nat
  guesses : List (List Nat × List Feedback)
  solved : Bool
  discovered0 : Finset Nat
  discovered1 : Finset Nat

/-- `WaaduruGame.add_guess` (bot.py lines 1593-1603): append the guess, set
`solved` when the guess equals the answer, and union orange-tier shared
radicals into the discovered sets. -/
def WaaduruGame.add_guess (g : WaaduruGame) (guess : List Nat)
    (results : List Feedback) : WaaduruGame :=
  { g with
    guesses := g.guesses ++ [(guess, results)]
    solved :=
      if guess = [g.answer_word.1, g.answer_word.2] then true else g.solved
    discovered0 := g.discovered0 ∪ orangeShared Prod.fst results
    discovered1 := g.discovered1 ∪ orangeShared Prod.snd results }

/-- `WaaduruGame.is_game_over` (bot.py lines 1611-1613). -/
def WaaduruGame.isOver (g : WaaduruGame) : Bool :=
  g.solved || waaduruMaxGuesses ≤ g.guesses.length

/-- `DailyWaaduruGame` state for the per-user daily game (bot.py lines
1629-1641). -/
structure DailyWaaduruGame where
  user_id : Nat
  answer_word : Nat × Nat
  answer_reading : List Nat
  answer_meaning : List Nat
  channel_id : Nat
  message_id : Nat
  guesses : List (List Nat × List Feedback)
  solved : Bool
  discovered0 : Finset Nat
  discovered1 : Finset Nat

/-- `DailyWaaduruGame.add_guess` (bot.py lines 1677-1685, identical body to
the shared-channel variant). -/
def DailyWaaduruGame.add_guess (g : DailyWaaduruGame) (guess : List Nat)
    (results : List Feedback) : DailyWaaduruGame :=
  { g with
    guesses := g.guesses ++ [(guess, results)]
    solved :=
      if guess = [g.answer_word.1, g.answer_word.2] then true else g.solved
    discovered0 := g.discovered0 ∪ orangeShared Prod.fst results
    discovered1 := g.discovered1 ∪ orangeShared Prod.snd results }

/-- `DailyWaaduruGame.is_game_over` (bot.py lines 1692-1693). -/
def DailyWaaduruGame.isOver (g : DailyWaaduruGame) : Bool :=
  g.solved || waaduruMaxGuesses ≤ g.guesses.length

/-- `handle_waaduru_guess` (bot.py lines 1990-2041) acting on the channel's
registry entry of `active_waaduru_games`.  `valid` is the verdict of
`validate_jukugo_guess`.  A missing or already-terminal game, an invalid
guess, or a failed length check leave the entry as is; after a recorded guess
the game is popped (`none`) when it is solved or out of guesses. -/
def handleWaaduruStep (entry : Option WaaduruGame) (valid : Bool)
    (guess : List Nat) (krad : Nat → Finset Nat) : Option WaaduruGame :=
  match entry with
  | none => none
  | some game =>
    if game.isOver then some game
    else if ¬ valid then some game
    else
      match check_guess krad game.answer_word guess with
      | none => some game
      | some results =>
        let game' := game.add_guess guess results
        if game'.solved then none
        else if game'.isOver then none
        else some game'

/-- `handle_daily_waaduru_guess` (bot.py lines 2044-2100) acting on the
user's registry entry of `active_daily_waaduru_games`.  Unlike the
shared-channel handler it never pops the entry: a finished daily game is kept
in memory so the user cannot play again that day (bot.py lines 2098-2099). -/
def handleDailyWaaduruStep (entry : Option DailyWaaduruGame) (valid : Bool)
    (guess : List Nat) (krad : Nat → Finset Nat) : Option DailyWaaduruGame :=
  match entry with
  | none => none
  | some game =>
    if game.isOver then some game
    else if ¬ valid then some game
    else
      match check_guess krad game.answer_word guess with
      | none => some game
      | some results => some (game.add_guess guess results)

/-! ## Daily word selection (bot.py lines 1699-1780) -/

/-- A `(word, reading, meaning)` candidate as assembled by the daily word
search. -/
abbrev DailyCandidate := List Nat × List Nat × List Nat

/-- The process-wide daily cache `daily_waaduru_word` (bot.py line 1626). -/
structure DailyCache where
  date : Option (List Nat)
  word : Option DailyCandidate
deriving DecidableEq

/-- Abstract model of Python's seeded `random.Random`: `init` builds the
generator state from the seed, `shuffle` permutes a list and advances the
state, `choice` produces the raw draw used to index a candidate list.  Any
instantiation is deterministic in the seed, as the concrete Mersenne-Twister
generator is. -/
structure RngModel where
  init : Nat → Nat
  shuffle : Nat → List Nat → List Nat × Nat
  choice : Nat → Nat

/-- The date seed `int(today.replace("-", ""))` (bot.py line 1715): decimal
value of the date string with the dashes removed. -/
def dateSeed (today : List Nat) : Nat :=
  today.foldl
    (fun acc c => if c = '-'.toNat then acc else acc * 10 + (c - '0'.toNat)) 0

/-- The fixed candidate starting-kanji list of `get_daily_waaduru_word`
(bot.py lines 1718-1725). -/
def COMMON_KANJI_DAILY : List Nat :=
  "日月水火木金土人大小山川田中出入上下生学会社国本電車食飲話語読書見聞言思知気手足目耳口心体頭顔名前後左右東西南北春夏秋冬朝昼夜今先来年時分間長短高低新古若老男女".toList.map
    Char.toNat

/-- The seeded `random.choice(candidates)` pick (bot.py line 1773), modelled
by indexing with the generator's raw draw modulo the list length. -/
def chooseCandidate (R : RngModel) (st : Nat)
    (cands : List DailyCandidate) : DailyCandidate :=
  cands.getD (R.choice st % cands.length) ([], [], [])

/-- The `for start_kanji in shuffled_kanji` loop of `get_daily_waaduru_word`
(bot.py lines 1731-1778).  `resp k` is the filtered candidate list extracted
from the lookup-service response for starting kanji `k` (empty on a failed
request, missing data, or no surviving candidate, all of which `continue`).
The first nonempty candidate list yields the seeded choice and updates the
cache; falling off the end returns `none` with the cache untouched. -/
def dailyLoop (R : RngModel) (resp : Nat → List DailyCandidate)
    (today : List Nat) (st : Nat) (cache : DailyCache) :
    List Nat → Option DailyCandidate × DailyCache
  | [] => (none, cache)
  | k :: rest =>
    let cands := resp k
    if cands.isEmpty then dailyLoop R resp today st cache rest
    else
      let chosen := chooseCandidate R st cands
      (some chosen, { date := some today, word := some chosen })

/-- `get_daily_waaduru_word` (bot.py lines 1704-1780) with the global cache
threaded explicitly.  On a cache hit for today's date the cached word is
returned; otherwise a generator seeded only by the date shuffles the fixed
kanji list and the loop picks the word, storing it in the cache keyed by the
date. -/
def get_daily_waaduru_word (R : RngModel) (resp : Nat → List DailyCandidate)
    (today : List Nat) (cache : DailyCache) :
    Option DailyCandidate × DailyCache :=
  if cache.date = some today ∧ cache.word.isSome then (cache.word, cache)
  else
    let st0 := R.init (dateSeed today)
    let shuffled := R.shuffle st0 COMMON_KANJI_DAILY
    dailyLoop R resp today shuffled.2 cache shuffled.1

/-! ## Daily public progress display (bot.py lines 1783-1823) -/

/-- Emoji used by `format_daily_public_result` (bot.py lines 1785-1790). -/
def colorEmoji : GuessResult → String
  | GuessResult.green => "🟩"
  | GuessResult.yellow => "🟨"
  | GuessResult.orange => "🟧"
  | GuessResult.gray => "⬛"

/-- `format_daily_public_result` (bot.py lines 1783-1791): colors only, the
guessed characters are dropped. -/
def format_daily_public_result (results : List Feedback) : String :=
  String.join (results.map fun fb => colorEmoji fb.1)

/-- The rendered content of the public progress embed: title, description
and a tag for the embed color (0 green, 1 red, 2 blue).  The footer only
carries the current date and is independent of the game. -/
structure EmbedView where
  title : String
  description : String
  color : Nat
deriving DecidableEq

/-- `create_daily_public_embed` (bot.py lines 1794-1823): one color-only line
per recorded guess, blank placeholders for the remaining guesses, and a
title/status text depending only on the player's display name, the solved
flag and the number of guesses. -/
def create_daily_public_embed (game : DailyWaaduruGame)
    (user_name : String) : EmbedView :=
  let lines := game.guesses.map fun gw => format_daily_public_result gw.2
  let remaining := waaduruMaxGuesses - game.guesses.length
  let allLines := lines ++ List.replicate remaining "⬜⬜"
  let description := String.intercalate "\n" allLines
  if game.solved then
    { title := "🎉 Daily Waaduru - " ++ user_name ++ " solved it!"
      description := description ++ "\n\n**Solved in " ++
        toString game.guesses.length ++ "/5 guesses!**"
      color := 0 }
  else if game.isOver then
    { title := "💀 Daily Waaduru - " ++ user_name
      description := description ++ "\n\n**Better luck tomorrow!**"
      color := 1 }
  else
    { title := "📝 Daily Waaduru - " ++ user_name ++ " (" ++
        toString game.guesses.length ++ "/5)"
      description := description
      color := 2 }

/-! ## Concrete sample states used to instantiate the theorems -/

/-- A radical index in which every kanji has the empty radical set
(`KRAD_MAP.get` defaults to the empty set for unknown kanji). -/
def sampleKrad : Nat → Finset Nat := fun _ => ∅

/-- A freshly created shared-channel Waaduru game with answer 日本. -/
def sampleWaaduru : WaaduruGame :=
  { channel_id := 1
    answer_word := ('日'.toNat, '本'.toNat)
    answer_reading := []
    answer_meaning := []
    guesses := []
    solved := false
    discovered0 := ∅
    discovered1 := ∅ }

/-- A shared-channel Waaduru game that is already solved. -/
def sampleWaaduruSolved : WaaduruGame :=
  { sampleWaaduru with solved := true }

/-- A freshly created daily Waaduru game with answer 日本. -/
def sampleDaily : DailyWaaduruGame :=
  { user_id := 9
    answer_word := ('日'.toNat, '本'.toNat)
    answer_reading := []
    answer_meaning := []
    channel_id := 1
    message_id := 2
    guesses := []
    solved := false
    discovered0 := ∅
    discovered1 := ∅ }

/-- A daily Waaduru game that is already solved. -/
def sampleDailySolved : DailyWaaduruGame :=
  { sampleDaily with solved := true }

/-- A freshly created multiplayer chain game starting on か. -/
def sampleChain : ShiritoriGame :=
  ShiritoriGame.create 5 GameMode.multiplayer ['か'.toNat] ['き'.toNat]

/-- A freshly created word-basket chain game with start あ and end い. -/
def sampleBasket : ShiritoriGame :=
  ShiritoriGame.create 6 GameMode.wordBasket ['あ'.toNat] ['い'.toNat]

/-- A freshly created vs-computer chain game starting on は. -/
def sampleVsBot : ShiritoriGame :=
  ShiritoriGame.create 7 GameMode.vsBot ['は'.toNat] []

/-- A daily game after one recorded guess 日月 with feedback tiers orange,
gray and one shared radical recorded for the orange position. -/
def sampleDailyA : DailyWaaduruGame :=
  { sampleDaily with
    guesses := [(['日'.toNat, '月'.toNat],
      [(GuessResult.orange, {1}, ∅), (GuessResult.gray, ∅, ∅)])] }

/-- A daily game with a different answer after one recorded guess 月火 with
the same feedback tiers as `sampleDailyA` but different orange shared
radical sets. -/
def sampleDailyB : DailyWaaduruGame :=
  { sampleDaily with
    answer_word := ('月'.toNat, '水'.toNat)
    guesses := [(['月'.toNat, '火'.toNat],
      [(GuessResult.orange, {2}, {3}), (GuessResult.gray, ∅, ∅)])] }

/-- A trivial deterministic instantiation of the random-generator model. -/
def sampleRng : RngModel :=
  { init := fun s => s
    shuffle := fun st l => (l, st)
    choice := fun _ => 0 }

/-- Projection of the feedback tier at position `i` out of a `check_guess`
result. -/
def tierAt (r : Option (List Feedback)) (i : Nat) : Option GuessResult :=
  r.bind fun l => l[i]?.map fun fb => fb.1

/-! ## Helper lemmas about the kana normalization -/

theorem normalizeKanaChar_not_katakana (c : Nat) :
    isKatakanaCode (normalizeKanaChar c) = false := by
  unfold normalizeKanaChar
  by_cases h : isKatakanaCode c
  · rw [if_pos h]
    unfold isKatakanaCode at h ⊢
    simp only [Bool.and_eq_true, decide_eq_true_eq] at h
    simp only [Bool.and_eq_false_iff, decide_eq_false_iff_not]
    omega
  · rw [if_neg h]
    simp only [Bool.not_eq_true] at h
    exact h

theorem normalizeKanaChar_eq_of_not_katakana (c : Nat)
    (h : isKatakanaCode c = false) : normalizeKanaChar c = c := by
  unfold normalizeKanaChar
  rw [h]
  simp

theorem normalizeKanaChar_idem (c : Nat) :
    normalizeKanaChar (normalizeKanaChar c) = normalizeKanaChar c :=
  normalizeKanaChar_eq_of_not_katakana _ (normalizeKanaChar_not_katakana c)

theorem normalize_small_kana_of_not_key (c : Nat) (h1 : c ≠ 'ゃ'.toNat)
    (h2 : c ≠ 'ゅ'.toNat) (h3 : c ≠ 'ょ'.toNat) (h4 : c ≠ 'ぁ'.toNat)
    (h5 : c ≠ 'ぃ'.toNat) (h6 : c ≠ 'ぅ'.toNat) (h7 : c ≠ 'ぇ'.toNat)
    (h8 : c ≠ 'ぉ'.toNat) (h9 : c ≠ 'ゎ'.toNat) (h10 : c ≠ 'っ'.toNat)
    (h11 : c ≠ 'ャ'.toNat) (h12 : c ≠ 'ュ'.toNat) (h13 : c ≠ 'ョ'.toNat)
    (h14 : c ≠ 'ァ'.toNat) (h15 : c ≠ 'ィ'.toNat) (h16 : c ≠ 'ゥ'.toNat)
    (h17 : c ≠ 'ェ'.toNat) (h18 : c ≠ 'ォ'.toNat) (h19 : c ≠ 'ヮ'.toNat)
    (h20 : c ≠ 'ッ'.toNat) (h21 : c ≠ 'ヵ'.toNat) (h22 : c ≠ 'ヶ'.toNat) :
    normalize_small_kana c = c := by
  unfold normalize_small_kana
  rw [if_neg h1, if_neg h2, if_neg h3, if_neg h4, if_neg h5, if_neg h6,
    if_neg h7, if_neg h8, if_neg h9, if_neg h10, if_neg h11, if_neg h12,
    if_neg h13, if_neg h14, if_neg h15, if_neg h16, if_neg h17, if_neg h18,
    if_neg h19, if_neg h20, if_neg h21, if_neg h22]

theorem normalize_small_kana_not_katakana (c : Nat)
    (h : isKatakanaCode c = false) :
    isKatakanaCode (normalize_small_kana c) = false := by
  rcases eq_or_ne c 'ゃ'.toNat with rfl | h1; · revert h; decide
  rcases eq_or_ne c 'ゅ'.toNat with rfl | h2; · revert h; decide
  rcases eq_or_ne c 'ょ'.toNat with rfl | h3; · revert h; decide
  rcases eq_or_ne c 'ぁ'.toNat with rfl | h4; · revert h; decide
  rcases eq_or_ne c 'ぃ'.toNat with rfl | h5; · revert h; decide
  rcases eq_or_ne c 'ぅ'.toNat with rfl | h6; · revert h; decide
  rcases eq_or_ne c 'ぇ'.toNat with rfl | h7; · revert h; decide
  rcases eq_or_ne c 'ぉ'.toNat with rfl | h8; · revert h; decide
  rcases eq_or_ne c 'ゎ'.toNat with rfl | h9; · revert h; decide
  rcases eq_or_ne c 'っ'.toNat with rfl | h10; · revert h; decide
  rcases eq_or_ne c 'ャ'.toNat with rfl | h11; · revert h; decide
  rcases eq_or_ne c 'ュ'.toNat with rfl | h12; · revert h; decide
  rcases eq_or_ne c 'ョ'.toNat with rfl | h13; · revert h; decide
  rcases eq_or_ne c 'ァ'.toNat with rfl | h14; · revert h; decide
  rcases eq_or_ne c 'ィ'.toNat with rfl | h15; · revert h; decide
  rcases eq_or_ne c 'ゥ'.toNat with rfl | h16; · revert h; decide
  rcases eq_or_ne c 'ェ'.toNat with rfl | h17; · revert h; decide
  rcases eq_or_ne c 'ォ'.toNat with rfl | h18; · revert h; decide
  rcases eq_or_ne c 'ヮ'.toNat with rfl | h19; · revert h; decide
  rcases eq_or_ne c 'ッ'.toNat with rfl | h20; · revert h; decide
  rcases eq_or_ne c 'ヵ'.toNat with rfl | h21; · revert h; decide
  rcases eq_or_ne c 'ヶ'.toNat with rfl | h22; · revert h; decide
  rw [normalize_small_kana_of_not_key c h1 h2 h3 h4 h5 h6 h7 h8 h9 h10 h11
    h12 h13 h14 h15 h16 h17 h18 h19 h20 h21 h22]
  exact h

theorem normalize_small_kana_idem (c : Nat) :
    normalize_small_kana (normalize_small_kana c) = normalize_small_kana c := by
  rcases eq_or_ne c 'ゃ'.toNat with rfl | h1; · decide
  rcases eq_or_ne c 'ゅ'.toNat with rfl | h2; · decide
  rcases eq_or_ne c 'ょ'.toNat with rfl | h3; · decide
  rcases eq_or_ne c 'ぁ'.toNat with rfl | h4; · decide
  rcases eq_or_ne c 'ぃ'.toNat with rfl | h5; · decide
  rcases eq_or_ne c 'ぅ'.toNat with rfl | h6; · decide
  rcases eq_or_ne c 'ぇ'.toNat with rfl | h7; · decide
  rcases eq_or_ne c 'ぉ'.toNat with rfl | h8; · decide
  rcases eq_or_ne c 'ゎ'.toNat with rfl | h9; · decide
  rcases eq_or_ne c 'っ'.toNat with rfl | h10; · decide
  rcases eq_or_ne c 'ャ'.toNat with rfl | h11; · decide
  rcases eq_or_ne c 'ュ'.toNat with rfl | h12; · decide
  rcases eq_or_ne c 'ョ'.toNat with rfl | h13; · decide
  rcases eq_or_ne c 'ァ'.toNat with rfl | h14; · decide
  rcases eq_or_ne c 'ィ'.toNat with rfl | h15; · decide
  rcases eq_or_ne c 'ゥ'.toNat with rfl | h16; · decide
  rcases eq_or_ne c 'ェ'.toNat with rfl | h17; · decide
  rcases eq_or_ne c 'ォ'.toNat with rfl | h18; · decide
  rcases eq_or_ne c 'ヮ'.toNat with rfl | h19; · decide
  rcases eq_or_ne c 'ッ'.toNat with rfl | h20; · decide
  rcases eq_or_ne c 'ヵ'.toNat with rfl | h21; · decide
  rcases eq_or_ne c 'ヶ'.toNat with rfl | h22; · decide
  rw [normalize_small_kana_of_not_key c h1 h2 h3 h4 h5 h6 h7 h8 h9 h10 h11
    h12 h13 h14 h15 h16 h17 h18 h19 h20 h21 h22,
    normalize_small_kana_of_not_key c h1 h2 h3 h4 h5 h6 h7 h8 h9 h10 h11
    h12 h13 h14 h15 h16 h17 h18 h19 h20 h21 h22]

/-- C8: the canonical kana comparison form is idempotent: for every string x,
applying `normalize_for_comparison` (katakana-to-hiragana code-point shift
followed by the small-to-full-size kana table) twice yields the same result
as applying it once. -/
theorem normalize_for_comparison_idempotent :
    ∀ x : List Nat,
      normalize_for_comparison (normalize_for_comparison x) =
        normalize_for_comparison x := by
  intro x
  rcases x with _ | ⟨c, _ | ⟨c2, rest⟩⟩
  · rfl
  · show [normalize_small_kana (normalizeKanaChar
        (normalize_small_kana (normalizeKanaChar c)))] =
      [normalize_small_kana (normalizeKanaChar c)]
    have h1 := normalizeKanaChar_not_katakana c
    have h2 := normalize_small_kana_not_katakana _ h1
    rw [normalizeKanaChar_eq_of_not_katakana _ h2, normalize_small_kana_idem]
  · show List.map normalizeKanaChar
        (List.map normalizeKanaChar (c :: c2 :: rest)) =
      List.map normalizeKanaChar (c :: c2 :: rest)
    simp only [List.map_map]
    congr 1
    funext a
    exact normalizeKanaChar_idem a

/-- C9: `get_last_kana` returns the last character of the hiragana or
katakana blocks with the elongation mark U+30FC skipped while scanning from
the end: it never returns the elongation mark, it returns the empty string
when no qualifying character exists, it returns the last qualifying
character of any decomposition, and on the input コーヒー it returns the
character ヒ (whose normalized comparison form is ひ), not ー. -/
theorem get_last_kana_spec :
    (∀ text : List Nat, get_last_kana text ≠ ['ー'.toNat]) ∧
    (∀ text : List Nat, (∀ c ∈ text, lastKanaQual c = false) →
      get_last_kana text = []) ∧
    (∀ (pre : List Nat) (c : Nat) (suf : List Nat),
      lastKanaQual c = true → (∀ d ∈ suf, lastKanaQual d = false) →
      get_last_kana (pre ++ c :: suf) = [c]) ∧
    get_last_kana ['コ'.toNat, 'ー'.toNat, 'ヒ'.toNat, 'ー'.toNat] =
      ['ヒ'.toNat] ∧
    normalize_for_comparison
        (get_last_kana ['コ'.toNat, 'ー'.toNat, 'ヒ'.toNat, 'ー'.toNat]) =
      ['ひ'.toNat] := by
  refine ⟨?_, ?_, ?_, by decide, by decide⟩
  · intro text
    unfold get_last_kana
    cases hfind : text.reverse.find? lastKanaQual with
    | none => simp
    | some c =>
      have hq := List.find?_some hfind
      simp only [ne_eq, List.cons.injEq, and_true]
      intro hc
      subst hc
      revert hq
      decide
  · intro text h
    have hnone : text.reverse.find? lastKanaQual = none :=
      List.find?_eq_none.mpr fun x hx => by
        rw [List.mem_reverse] at hx
        simp [h x hx]
    unfold get_last_kana
    rw [hnone]
  · intro pre c suf hc hsuf
    have hnone : suf.reverse.find? lastKanaQual = none :=
      List.find?_eq_none.mpr fun x hx => by
        rw [List.mem_reverse] at hx
        simp [hsuf x hx]
    unfold get_last_kana
    rw [List.reverse_append, List.reverse_cons, List.find?_append,
      List.find?_append, hnone, List.find?_cons_of_pos _ hc]
    rfl

/-- Witness for C9: the characterization applied to the concrete
decomposition コー·ヒ·ー of コーヒー. -/
theorem get_last_kana_spec_witness :
    get_last_kana (['コ'.toNat, 'ー'.toNat] ++ 'ヒ'.toNat :: ['ー'.toNat]) =
      ['ヒ'.toNat] :=
  get_last_kana_spec.2.2.1 ['コ'.toNat, 'ー'.toNat] 'ヒ'.toNat ['ー'.toNat]
    (by decide) (by decide)

/-- C1: for every two-kanji answer and two-character guess, `check_guess`
assigns position i the tier green exactly when the guessed kanji equals the
answer kanji at i; yellow exactly when not green and the guessed kanji occurs
somewhere in the answer; orange exactly when neither holds and the radical
set of the guessed kanji meets the radical set of at least one answer
position; gray otherwise.  When the guess equals the answer exactly both
feedback entries are green and `add_guess` sets `solved` to true (in both
the shared-channel and the daily game class). -/
theorem compound_feedback_spec :
    ∀ (krad : Nat → Finset Nat) (a0 a1 g0 g1 : Nat),
      (tierAt (check_guess krad (a0, a1) [g0, g1]) 0 =
          some GuessResult.green ↔ g0 = a0) ∧
      (tierAt (check_guess krad (a0, a1) [g0, g1]) 0 =
          some GuessResult.yellow ↔ (g0 ≠ a0 ∧ (g0 = a0 ∨ g0 = a1))) ∧
      (tierAt (check_guess krad (a0, a1) [g0, g1]) 0 =
          some GuessResult.orange ↔
        (g0 ≠ a0 ∧ ¬(g0 = a0 ∨ g0 = a1) ∧
          (krad g0 ∩ krad a0 ≠ ∅ ∨ krad g0 ∩ krad a1 ≠ ∅))) ∧
      (tierAt (check_guess krad (a0, a1) [g0, g1]) 0 =
          some GuessResult.gray ↔
        (g0 ≠ a0 ∧ ¬(g0 = a0 ∨ g0 = a1) ∧
          ¬(krad g0 ∩ krad a0 ≠ ∅ ∨ krad g0 ∩ krad a1 ≠ ∅))) ∧
      (tierAt (check_guess krad (a0, a1) [g0, g1]) 1 =
          some GuessResult.green ↔ g1 = a1) ∧
      (tierAt (check_guess krad (a0, a1) [g0, g1]) 1 =
          some GuessResult.yellow ↔ (g1 ≠ a1 ∧ (g1 = a0 ∨ g1 = a1))) ∧
      (tierAt (check_guess krad (a0, a1) [g0, g1]) 1 =
          some GuessResult.orange ↔
        (g1 ≠ a1 ∧ ¬(g1 = a0 ∨ g1 = a1) ∧
          (krad g1 ∩ krad a0 ≠ ∅ ∨ krad g1 ∩ krad a1 ≠ ∅))) ∧
      (tierAt (check_guess krad (a0, a1) [g0, g1]) 1 =
          some GuessResult.gray ↔
        (g1 ≠ a1 ∧ ¬(g1 = a0 ∨ g1 = a1) ∧
          ¬(krad g1 ∩ krad a0 ≠ ∅ ∨ krad g1 ∩ krad a1 ≠ ∅))) ∧
      check_guess krad (a0, a1) [a0, a1] =
        some [(GuessResult.green, ∅, ∅), (GuessResult.green, ∅, ∅)] ∧
      (∀ (game : WaaduruGame) (results : List Feedback),
        (game.add_guess [game.answer_word.1, game.answer_word.2]
          results).solved = true) ∧
      (∀ (game : DailyWaaduruGame) (results : List Feedback),
        (game.add_guess [game.answer_word.1, game.answer_word.2]
          results).solved = true) := by
  intro krad a0 a1 g0 g1
  have key : ∀ ai gi,
      ((checkPosition krad (a0, a1) ai gi).1 = GuessResult.green ↔
        gi = ai) ∧
      ((checkPosition krad (a0, a1) ai gi).1 = GuessResult.yellow ↔
        (gi ≠ ai ∧ (gi = a0 ∨ gi = a1))) ∧
      ((checkPosition krad (a0, a1) ai gi).1 = GuessResult.orange ↔
        (gi ≠ ai ∧ ¬(gi = a0 ∨ gi = a1) ∧
          (krad gi ∩ krad a0 ≠ ∅ ∨ krad gi ∩ krad a1 ≠ ∅))) ∧
      ((checkPosition krad (a0, a1) ai gi).1 = GuessResult.gray ↔
        (gi ≠ ai ∧ ¬(gi = a0 ∨ gi = a1) ∧
          ¬(krad gi ∩ krad a0 ≠ ∅ ∨ krad gi ∩ krad a1 ≠ ∅))) := by
    intro ai gi
    simp only [checkPosition]
    split_ifs with h1 h2 h3 <;> refine ⟨?_, ?_, ?_, ?_⟩ <;> simp_all
  have e0 : tierAt (check_guess krad (a0, a1) [g0, g1]) 0 =
      some ((checkPosition krad (a0, a1) a0 g0).1) := rfl
  have e1 : tierAt (check_guess krad (a0, a1) [g0, g1]) 1 =
      some ((checkPosition krad (a0, a1) a1 g1).1) := rfl
  refine ⟨?_, ?_, ?_, ?_, ?_, ?_, ?_, ?_, ?_, ?_, ?_⟩
  · rw [e0, Option.some_inj]; exact (key a0 g0).1
  · rw [e0, Option.some_inj]; exact (key a0 g0).2.1
  · rw [e0, Option.some_inj]; exact (key a0 g0).2.2.1
  · rw [e0, Option.some_inj]; exact (key a0 g0).2.2.2
  · rw [e1, Option.some_inj]; exact (key a1 g1).1
  · rw [e1, Option.some_inj]; exact (key a1 g1).2.1
  · rw [e1, Option.some_inj]; exact (key a1 g1).2.2.1
  · rw [e1, Option.some_inj]; exact (key a1 g1).2.2.2
  · show some [checkPosition krad (a0, a1) a0 a0,
        checkPosition krad (a0, a1) a1 a1] = _
    unfold checkPosition
    simp
  · intro game results
    simp [WaaduruGame.add_guess]
  · intro game results
    simp [DailyWaaduruGame.add_guess]

/-- C2: for both the shared-channel and the per-user daily Waaduru game, a
terminal game (solved or five guesses recorded) is left untouched by the
guess-handling step, and the invariant that the recorded guess list never
exceeds the budget of five is preserved by every guess-processing
operation. -/
theorem compound_guess_budget_invariant :
    (∀ (game : WaaduruGame) (valid : Bool) (guess : List Nat)
        (krad : Nat → Finset Nat), game.isOver = true →
      handleWaaduruStep (some game) valid guess krad = some game) ∧
    (∀ (game : DailyWaaduruGame) (valid : Bool) (guess : List Nat)
        (krad : Nat → Finset Nat), game.isOver = true →
      handleDailyWaaduruStep (some game) valid guess krad = some game) ∧
    (∀ (entry : Option WaaduruGame) (valid : Bool) (guess : List Nat)
        (krad : Nat → Finset Nat) (g g' : WaaduruGame),
      entry = some g → g.guesses.length ≤ waaduruMaxGuesses →
      handleWaaduruStep entry valid guess krad = some g' →
      g'.guesses.length ≤ waaduruMaxGuesses) ∧
    (∀ (entry : Option DailyWaaduruGame) (valid : Bool) (guess : List Nat)
        (krad : Nat → Finset Nat) (g g' : DailyWaaduruGame),
      entry = some g → g.guesses.length ≤ waaduruMaxGuesses →
      handleDailyWaaduruStep entry valid guess krad = some g' →
      g'.guesses.length ≤ waaduruMaxGuesses) := by
  refine ⟨?_, ?_, ?_, ?_⟩
  · intro game valid guess krad hov
    simp [handleWaaduruStep, hov]
  · intro game valid guess krad hov
    simp [handleDailyWaaduruStep, hov]
  · intro entry valid guess krad g g' hent hlen hstep
    subst hent
    simp only [handleWaaduruStep] at hstep
    by_cases hov : g.isOver
    · rw [if_pos hov] at hstep
      cases hstep
      exact hlen
    · rw [if_neg hov] at hstep
      by_cases hv : valid = true
      · rw [if_neg (by simp [hv])] at hstep
        cases hcg : check_guess krad g.answer_word guess with
        | none =>
          rw [hcg] at hstep
          dsimp only at hstep
          cases hstep
          exact hlen
        | some results =>
          rw [hcg] at hstep
          dsimp only at hstep
          split_ifs at hstep with hs ho
          cases hstep
          have hlt : g.guesses.length < waaduruMaxGuesses := by
            simp only [WaaduruGame.isOver, Bool.or_eq_true,
              decide_eq_true_eq] at hov
            omega
          simp only [WaaduruGame.add_guess, List.length_append,
            List.length_cons, List.length_nil]
          omega
      · rw [if_pos hv] at hstep
        cases hstep
        exact hlen
  · intro entry valid guess krad g g' hent hlen hstep
    subst hent
    simp only [handleDailyWaaduruStep] at hstep
    by_cases hov : g.isOver
    · rw [if_pos hov] at hstep
      cases hstep
      exact hlen
    · rw [if_neg hov] at hstep
      by_cases hv : valid = true
      · rw [if_neg (by simp [hv])] at hstep
        cases hcg : check_guess krad g.answer_word guess with
        | none =>
          rw [hcg] at hstep
          dsimp only at hstep
          cases hstep
          exact hlen
        | some results =>
          rw [hcg] at hstep
          dsimp only at hstep
          cases hstep
          have hlt : g.guesses.length < waaduruMaxGuesses := by
            simp only [DailyWaaduruGame.isOver, Bool.or_eq_true,
              decide_eq_true_eq] at hov
            omega
          simp only [DailyWaaduruGame.add_guess, List.length_append,
            List.length_cons, List.length_nil]
          omega
      · rw [if_pos hv] at hstep
        cases hstep
        exact hlen

/-- Witness for C2: both handlers leave a concrete already-solved game
untouched. -/
theorem compound_guess_budget_invariant_witness :
    handleWaaduruStep (some sampleWaaduruSolved) true [] sampleKrad =
      some sampleWaaduruSolved ∧
    handleDailyWaaduruStep (some sampleDailySolved) true [] sampleKrad =
      some sampleDailySolved :=
  ⟨compound_guess_budget_invariant.1 sampleWaaduruSolved true [] sampleKrad
      (by rfl),
    compound_guess_budget_invariant.2.1 sampleDailySolved true [] sampleKrad
      (by rfl)⟩

/-- Counterexample to C3: a daily Waaduru game that becomes solved is NOT
removed from its registry — the handler keeps the terminal game in
`active_daily_waaduru_games` (bot.py lines 2098-2099), so the entry is still
present and terminal after the winning guess. -/
theorem daily_terminal_retention_counterexample :
    (handleDailyWaaduruStep (some sampleDaily) true ['日'.toNat, '本'.toNat]
        sampleKrad).isSome = true ∧
    (handleDailyWaaduruStep (some sampleDaily) true ['日'.toNat, '本'.toNat]
        sampleKrad).elim false DailyWaaduruGame.isOver = true :=
  ⟨rfl, rfl⟩

/-- C3 (amended): a chain-game terminal-kana outcome removes the game from
the per-channel registry and a channel without a game processes no
submissions; a shared-channel Waaduru game that becomes terminal through a
recorded guess is removed from its registry; the per-user daily Waaduru
game, however, is never removed by its guess handler — it is deliberately
retained (marked terminal) so the user cannot restart that day. -/
theorem terminal_outcome_registry_removal :
    (∀ (g : ShiritoriGame) (author : Nat) (content : List Nat)
        (lookup botLookup : Option (List Nat × List Nat))
        (ws we : List Nat) (r : Option ShiritoriGame) (gf : ShiritoriGame),
      shiritoriStep g author content lookup botLookup ws we =
        (r, ChainOutcome.terminalKana gf) → r = none) ∧
    (∀ (author : Nat) (content : List Nat)
        (lookup botLookup : Option (List Nat × List Nat)) (ws we : List Nat),
      chainProcessMessage none author content lookup botLookup ws we =
        (none, ChainOutcome.noGame)) ∧
    (∀ (entry : Option WaaduruGame) (valid : Bool) (guess : List Nat)
        (krad : Nat → Finset Nat) (g g' : WaaduruGame),
      entry = some g → g.isOver = false →
      handleWaaduruStep entry valid guess krad = some g' →
      g'.isOver = false) ∧
    (∀ (entry : Option DailyWaaduruGame) (valid : Bool) (guess : List Nat)
        (krad : Nat → Finset Nat),
      (handleDailyWaaduruStep entry valid guess krad).isSome =
        entry.isSome) := by
  refine ⟨?_, ?_, ?_, ?_⟩
  · intro g author content lookup botLookup ws we r gf h
    simp only [shiritoriStep] at h
    rcases lookup with _ | ⟨reading, meaning⟩
    · repeat' split at h
      all_goals simp_all
    · repeat' split at h
      all_goals simp_all
  · intro author content lookup botLookup ws we
    rfl
  · intro entry valid guess krad g g' hent hov hstep
    subst hent
    simp only [handleWaaduruStep] at hstep
    rw [if_neg (by simp [hov])] at hstep
    by_cases hv : valid = true
    · rw [if_neg (by simp [hv])] at hstep
      cases hcg : check_guess krad g.answer_word guess with
      | none =>
        rw [hcg] at hstep
        dsimp only at hstep
        cases hstep
        exact hov
      | some results =>
        rw [hcg] at hstep
        dsimp only at hstep
        split_ifs at hstep with hs ho
        cases hstep
        simp only [Bool.not_eq_true] at ho
        exact ho
    · rw [if_pos hv] at hstep
      cases hstep
      exact hov
  · intro entry valid guess krad
    rcases entry with _ | g
    · rfl
    · simp only [handleDailyWaaduruStep]
      split_ifs <;> try rfl
      cases check_guess krad g.answer_word guess <;> rfl

/-- Witness for C3: the concrete losing word みかん (ending in ん) played in
the multiplayer sample game is removed from the registry, and a concrete
non-terminal shared Waaduru game stays non-terminal when it remains
registered. -/
theorem terminal_outcome_registry_removal_witness :
    (shiritoriStep sampleChain 3 ['み'.toNat, 'か'.toNat, 'ん'.toNat]
      (some (['み'.toNat, 'か'.toNat, 'ん'.toNat], [])) none [] []).1 =
      none :=
  terminal_outcome_registry_removal.1 sampleChain 3
    ['み'.toNat, 'か'.toNat, 'ん'.toNat]
    (some (['み'.toNat, 'か'.toNat, 'ん'.toNat], [])) none [] [] none
    sampleChain rfl

/-- C6: every chain-game reject path — no Japanese characters, lookup
failure, word-basket end-kana mismatch, or already-used word — leaves the
registry entry equal to the original game object, so `usedWords`,
`chainLength`, `requiredStartKana`, `requiredEndKana`, `lastWord`,
`lastReading` and `scores` are all unchanged; no partial mutation occurs on
any reject. -/
theorem chain_reject_frame :
    ∀ (g : ShiritoriGame) (author : Nat) (content : List Nat)
      (lookup botLookup : Option (List Nat × List Nat)) (ws we : List Nat)
      (r : Option ShiritoriGame) (o : ChainOutcome),
      shiritoriStep g author content lookup botLookup ws we = (r, o) →
      (o = ChainOutcome.notJapanese ∨ o = ChainOutcome.notFound ∨
        o = ChainOutcome.endKanaMismatch ∨ o = ChainOutcome.alreadyUsed) →
      r = some g := by
  intro g author content lookup botLookup ws we r o h ho
  simp only [shiritoriStep] at h
  rcases lookup with _ | ⟨reading, meaning⟩
  · repeat' split at h
    all_goals simp_all
  · repeat' split at h
    all_goals first
      | (simp_all; done)
      | (rw [Prod.mk.injEq] at h
         obtain ⟨h1, h2⟩ := h
         subst h2
         simp at ho)

/-- Witness for C6: a submission with no Japanese characters leaves the
concrete multiplayer game untouched in the registry. -/
theorem chain_reject_frame_witness :
    (shiritoriStep sampleChain 1 ['A'.toNat] none none [] []).1 =
      some sampleChain :=
  chain_reject_frame sampleChain 1 ['A'.toNat] none none [] []
    (some sampleChain) ChainOutcome.notJapanese rfl (Or.inl rfl)

/-- C10: when a submitted word is the losing word (its reading's last kana
normalizes to ん outside word-basket mode), the game ends with the
pre-submission state intact apart from removal from the registry: the
reported final game has the same `usedWords`, `chainLength`, `lastWord`,
`lastReading` and `scores` as before the submission (so the final chain
length excludes the losing word and no point is awarded), and the registry
entry becomes empty. -/
theorem chain_terminal_frame :
    ∀ (g : ShiritoriGame) (author : Nat) (content : List Nat)
      (lookup botLookup : Option (List Nat × List Nat)) (ws we : List Nat)
      (r : Option ShiritoriGame) (gf : ShiritoriGame),
      shiritoriStep g author content lookup botLookup ws we =
        (r, ChainOutcome.terminalKana gf) →
      gf.used_words = g.used_words ∧ gf.chain_count = g.chain_count ∧
        gf.last_word = g.last_word ∧ gf.last_reading = g.last_reading ∧
        gf.scores = g.scores ∧ r = none := by
  intro g author content lookup botLookup ws we r gf h
  have key : r = none ∧ gf = g := by
    simp only [shiritoriStep] at h
    rcases lookup with _ | ⟨reading, meaning⟩
    · repeat' split at h
      all_goals simp_all
    · repeat' split at h
      all_goals simp_all
  obtain ⟨hr, hg⟩ := key
  subst hg
  exact ⟨rfl, rfl, rfl, rfl, rfl, hr⟩

/-- Witness for C10: the losing word パン (reading ends in ン, normalized ん)
in a concrete vs-computer game: the registry entry becomes empty while the
reported game is the pre-submission one. -/
theorem chain_terminal_frame_witness :
    (shiritoriStep sampleVsBot 4 ['パ'.toNat, 'ン'.toNat]
      (some (['パ'.toNat, 'ン'.toNat], [])) none [] []).1 = none :=
  (chain_terminal_frame sampleVsBot 4 ['パ'.toNat, 'ン'.toNat]
    (some (['パ'.toNat, 'ン'.toNat], [])) none [] [] none sampleVsBot
    rfl).2.2.2.2.2

/-- Counterexample to C7: the new word-basket kana are drawn from the full
common-kana pool, so there is an outcome of the random draws in which an
accepted guess leaves `requiredStartKana` (and `requiredEndKana`) unchanged:
with the game at start あ / end い, the legal draws あ (from `COMMON_KANA`)
and い (from the pool excluding あ) reproduce the previous pair, refuting
"after any accepted guess both requiredStartKana and requiredEndKana change
... for every outcome of the random kana draws". -/
theorem wordbasket_kana_change_counterexample :
    ['あ'.toNat] ∈ COMMON_KANA ∧
    ['い'.toNat] ∈ differentKanaPool ['あ'.toNat] ∧
    (shiritoriStep sampleBasket 2 ['か'.toNat] (some (['い'.toNat], []))
        none ['あ'.toNat] ['い'.toNat]).2 = ChainOutcome.continueGame ∧
    ((shiritoriStep sampleBasket 2 ['か'.toNat] (some (['い'.toNat], []))
        none ['あ'.toNat] ['い'.toNat]).1.map
      (fun x => x.current_kana)) = some sampleBasket.current_kana ∧
    ((shiritoriStep sampleBasket 2 ['か'.toNat] (some (['い'.toNat], []))
        none ['あ'.toNat] ['い'.toNat]).1.map
      (fun x => x.end_kana)) = some sampleBasket.end_kana :=
  ⟨by decide, by decide, rfl, rfl, rfl⟩

/-- C7 (amended): in word-basket mode `requiredStartKana ≠ requiredEndKana`
holds at game creation and is preserved by every submission step, for every
outcome of the random draws from the fixed common-kana pools, and an
accepted word-basket guess redraws both kana to the drawn values (which may
coincide with the previous ones). -/
theorem wordbasket_kana_invariant :
    (∀ (channel : Nat) (startDraw endDraw : List Nat),
      endDraw ∈ differentKanaPool startDraw →
      ∀ e, (ShiritoriGame.create channel GameMode.wordBasket startDraw
          endDraw).end_kana = some e →
        e ≠ (ShiritoriGame.create channel GameMode.wordBasket startDraw
          endDraw).current_kana) ∧
    (∀ (g : ShiritoriGame) (author : Nat) (content : List Nat)
        (lookup botLookup : Option (List Nat × List Nat))
        (ws we : List Nat) (g' : ShiritoriGame),
      g.mode = GameMode.wordBasket →
      we ∈ differentKanaPool ws →
      (∀ e, g.end_kana = some e → e ≠ g.current_kana) →
      (shiritoriStep g author content lookup botLookup ws we).1 = some g' →
      ∀ e, g'.end_kana = some e → e ≠ g'.current_kana) ∧
    (∀ (g : ShiritoriGame) (author : Nat) (content : List Nat)
        (lookup botLookup : Option (List Nat × List Nat))
        (ws we : List Nat) (g' : ShiritoriGame),
      g.mode = GameMode.wordBasket →
      shiritoriStep g author content lookup botLookup ws we =
        (some g', ChainOutcome.continueGame) →
      g'.current_kana = ws ∧ g'.end_kana = some we) := by
  refine ⟨?_, ?_, ?_⟩
  · intro channel startDraw endDraw hmem e he
    have he' : e = endDraw := by simpa [ShiritoriGame.create] using he.symm
    subst he'
    have := List.of_mem_filter hmem
    simpa [ShiritoriGame.create] using this
  · intro g author content lookup botLookup ws we g' hmode hmem hinv hstep
    have hne : we ≠ ws := by
      have := List.of_mem_filter hmem
      simpa using this
    simp only [shiritoriStep] at hstep
    rcases lookup with _ | ⟨reading, meaning⟩
    · repeat' split at hstep
      all_goals simp_all
    · repeat' split at hstep
      all_goals
        first
          | (simp_all; done)
          | (simp only [Option.some_inj] at hstep
             subst hstep
             simp_all)
  · intro g author content lookup botLookup ws we g' hmode hstep
    simp only [shiritoriStep] at hstep
    rcases lookup with _ | ⟨reading, meaning⟩
    · repeat' split at hstep
      all_goals simp_all
    · repeat' split at hstep
      all_goals
        first
          | (simp_all; done)
          | (rw [Prod.mk.injEq] at hstep
             obtain ⟨h1, h2⟩ := hstep
             have h3 := Option.some.inj h1
             subst h3
             exact ⟨rfl, rfl⟩)

/-- Witness for C7: at creation with the legal draws あ and い the end kana
differs from the start kana. -/
theorem wordbasket_kana_invariant_witness :
    ['い'.toNat] ≠ (ShiritoriGame.create 6 GameMode.wordBasket ['あ'.toNat]
      ['い'.toNat]).current_kana :=
  wordbasket_kana_invariant.1 6 ['あ'.toNat] ['い'.toNat] (by decide)
    ['い'.toNat] rfl

/-- C5: the public progress display of a daily game never renders the
guessed characters: any two daily games whose guess histories produce the
same per-position feedback-tier sequences (the tiers alone, regardless of
the orange shared-radical sets) and agree on the solved flag (and hence on
the guess count), rendered for the same display name, yield an identical
public embed, regardless of which words were guessed. -/
theorem daily_public_embed_hides_guesses :
    ∀ (g1 g2 : DailyWaaduruGame) (user_name : String),
      g1.guesses.map (fun gw => gw.2.map Prod.fst) =
        g2.guesses.map (fun gw => gw.2.map Prod.fst) →
      g1.solved = g2.solved →
      create_daily_public_embed g1 user_name =
        create_daily_public_embed g2 user_name := by
  intro g1 g2 user_name hfb hs
  have hlen : g1.guesses.length = g2.guesses.length := by
    simpa using congrArg List.length hfb
  have hfmt : ∀ results : List Feedback,
      format_daily_public_result results =
        String.join ((results.map Prod.fst).map colorEmoji) := by
    intro results
    simp only [format_daily_public_result, List.map_map]
    rfl
  have hmaps : ∀ l : List (List Nat × List Feedback),
      l.map (fun gw => format_daily_public_result gw.2) =
        (l.map (fun gw => gw.2.map Prod.fst)).map
          (fun tiers => String.join (tiers.map colorEmoji)) := by
    intro l
    rw [List.map_map]
    exact congrArg (fun f => List.map f l)
      (funext fun gw => hfmt gw.2)
  have hlines : g1.guesses.map (fun gw => format_daily_public_result gw.2) =
      g2.guesses.map (fun gw => format_daily_public_result gw.2) := by
    rw [hmaps, hmaps, hfb]
  simp only [create_daily_public_embed, DailyWaaduruGame.isOver, hlines,
    hlen, hs]

/-- Witness for C5: two concrete one-guess daily games with different
guessed words, different answers and different orange shared-radical sets,
but identical feedback tiers, render the same public embed. -/
theorem daily_public_embed_hides_guesses_witness :
    create_daily_public_embed sampleDailyA "player" =
      create_daily_public_embed sampleDailyB "player" :=
  daily_public_embed_hides_guesses sampleDailyA sampleDailyB "player" rfl rfl

/-! ## Helper lemmas for the daily word selection -/

theorem dailyLoop_cases (R : RngModel) (resp : Nat → List DailyCandidate)
    (today : List Nat) (st : Nat) (cache : DailyCache) :
    ∀ l : List Nat,
      dailyLoop R resp today st cache l = (none, cache) ∨
      ∃ w, dailyLoop R resp today st cache l =
        (some w, { date := some today, word := some w }) := by
  intro l
  induction l with
  | nil => exact Or.inl rfl
  | cons k rest ih =>
    simp only [dailyLoop]
    split_ifs with h
    · exact ih
    · exact Or.inr ⟨_, rfl⟩

theorem dailyLoop_fst_cache_irrel (R : RngModel)
    (resp : Nat → List DailyCandidate) (today : List Nat) (st : Nat)
    (cA cB : DailyCache) :
    ∀ l : List Nat,
      (dailyLoop R resp today st cA l).1 =
        (dailyLoop R resp today st cB l).1 := by
  intro l
  induction l with
  | nil => rfl
  | cons k rest ih =>
    simp only [dailyLoop]
    split_ifs with h
    · exact ih
    · rfl

/-- C4: daily-answer determinism.  A second call to the daily word selection
on the same date, starting from the cache state left by the first call,
returns the same answer; and for any two stale caches (neither recording
today's date) the selected answer is identical, because the generator is
seeded only by the date and the loop consults only the date-shuffled kanji
list and the lookup responses.  Hence every user who plays the daily mode on
the same date receives the identical answer. -/
theorem daily_word_deterministic :
    (∀ (R : RngModel) (resp : Nat → List DailyCandidate) (today : List Nat)
        (cache : DailyCache),
      (get_daily_waaduru_word R resp today
          (get_daily_waaduru_word R resp today cache).2).1 =
        (get_daily_waaduru_word R resp today cache).1) ∧
    (∀ (R : RngModel) (resp : Nat → List DailyCandidate) (today : List Nat)
        (c1 c2 : DailyCache),
      c1.date ≠ some today → c2.date ≠ some today →
      (get_daily_waaduru_word R resp today c1).1 =
        (get_daily_waaduru_word R resp today c2).1) := by
  constructor
  · intro R resp today cache
    by_cases hhit : cache.date = some today ∧ cache.word.isSome
    · have h1 : get_daily_waaduru_word R resp today cache =
          (cache.word, cache) := by
        simp only [get_daily_waaduru_word]
        rw [if_pos hhit]
      rw [h1]
      dsimp only
      rw [h1]
    · have h1 : get_daily_waaduru_word R resp today cache =
          dailyLoop R resp today
            (R.shuffle (R.init (dateSeed today)) COMMON_KANJI_DAILY).2 cache
            (R.shuffle (R.init (dateSeed today)) COMMON_KANJI_DAILY).1 := by
        simp only [get_daily_waaduru_word]
        rw [if_neg hhit]
      rcases dailyLoop_cases R resp today
          (R.shuffle (R.init (dateSeed today)) COMMON_KANJI_DAILY).2 cache
          (R.shuffle (R.init (dateSeed today)) COMMON_KANJI_DAILY).1 with
        hl | ⟨w, hl⟩
      · have h2 : get_daily_waaduru_word R resp today cache =
            (none, cache) := h1.trans hl
        rw [h2]
        dsimp only
        rw [h2]
      · have h2 : get_daily_waaduru_word R resp today cache =
            (some w, { date := some today, word := some w }) := h1.trans hl
        rw [h2]
        dsimp only
        simp [get_daily_waaduru_word]
  · intro R resp today c1 c2 hc1 hc2
    have k1 : ¬(c1.date = some today ∧ c1.word.isSome) := fun hc => hc1 hc.1
    have k2 : ¬(c2.date = some today ∧ c2.word.isSome) := fun hc => hc2 hc.1
    simp only [get_daily_waaduru_word]
    rw [if_neg k1, if_neg k2]
    exact dailyLoop_fst_cache_irrel R resp today _ c1 c2 _

/-- Witness for C4: two stale caches (one empty, one recording another date)
yield the same daily answer for the same date and responses. -/
theorem daily_word_deterministic_witness :
    (get_daily_waaduru_word sampleRng (fun _ => []) ['d'.toNat]
        { date := none, word := none }).1 =
      (get_daily_waaduru_word sampleRng (fun _ => []) ['d'.toNat]
        { date := some ['e'.toNat], word := none }).1 :=
  daily_word_deterministic.2 sampleRng (fun _ => []) ['d'.toNat]
    { date := none, word := none } { date := some ['e'.toNat], word := none }
    (by decide) (by decide)

end Lain
